/-
Verification of the PiePerseus apk build pipeline (`pieperseus.py`).

The development shallowly embeds the pipeline's core routines:
`get_version` (multi-tier version resolution), `extract_from_packages`
(archive discovery and extraction), `build_perseus_lib` (native library
build, fatal on failure), `rebuild` (full apktool rebuild versus the
differential quick-rebuild fast path), and the `main` stage sequence.
External tools (glob, the badging dumper, the archive tool) are modelled
by their observable effect on the embedded state: directory listings are
lists of file names, tool invocations are environment fields carrying an
exit code and captured output, and a zip-like container is a finite map
from entry paths to payload bytes.
-/
import Mathlib

namespace PiePerseus

/-! ### String utilities

The embedding works on `String.data` (lists of characters) throughout, so
every operation reduces structurally.  Python string comparison is
lexicographic on code points, mirrored by `charListLe`. -/

/-- The fixed package name, `pkg` in the source (line 21). -/
def pkg : String := "com.bilibili.AzurLane"

/-- Lexicographic comparison of character lists by code point. -/
def charListLe : List Char → List Char → Bool
  | [], _ => true
  | _ :: _, [] => false
  | a :: as, b :: bs =>
    if a.val < b.val then true
    else if b.val < a.val then false
    else charListLe as bs

/-- `s <= t` in Python's string order. -/
def strLe (s t : String) : Bool := charListLe s.data t.data

/-- Does `s` start with `p`?  Models a glob pattern `p*`. -/
def strStarts (p s : String) : Bool := p.data.isPrefixOf s.data

/-- Does `s` end with `suf`?  Models a glob pattern `*suf`. -/
def strEnds (suf s : String) : Bool := suf.data.reverse.isPrefixOf s.data.reverse

/-- Is `n` a contiguous sub-list of `h`? -/
def hasSub (n : List Char) : List Char → Bool
  | [] => n.isEmpty
  | c :: cs => n.isPrefixOf (c :: cs) || hasSub n cs

/-- Does `s` contain `"part"`?  Models the glob pattern `*part*`. -/
def containsPart (s : String) : Bool := hasSub "part".data s.data

/-- Insert into a `strLe`-sorted list, keeping it sorted. -/
def insertSorted (x : String) : List String → List String
  | [] => [x]
  | y :: ys => if strLe x y then x :: y :: ys else y :: insertSorted x ys

/-- Sort a list of file names lexicographically; models Python `sorted`. -/
def sortStr (l : List String) : List String := l.foldr insertSorted []

theorem mem_insertSorted (x a : String) (l : List String) :
    a ∈ insertSorted x l ↔ a = x ∨ a ∈ l := by
  induction l with
  | nil => simp [insertSorted]
  | cons y ys ih =>
    by_cases h : strLe x y = true
    · simp [insertSorted, h]
    · simp [insertSorted, h, ih]
      tauto

theorem sortStr_mem (a : String) (l : List String) : a ∈ sortStr l ↔ a ∈ l := by
  induction l with
  | nil => simp [sortStr]
  | cons y ys ih =>
    show a ∈ insertSorted y (sortStr ys) ↔ _
    rw [mem_insertSorted, ih]
    simp

theorem insertSorted_ne_nil (x : String) (l : List String) : insertSorted x l ≠ [] := by
  cases l with
  | nil => simp [insertSorted]
  | cons y ys => by_cases h : strLe x y = true <;> simp [insertSorted, h]

theorem sortStr_ne_nil (l : List String) (h : l ≠ []) : sortStr l ≠ [] := by
  cases l with
  | nil => exact absurd rfl h
  | cons y ys => exact insertSorted_ne_nil y (sortStr ys)

/-! ### Timestamps

`datetime.strftime('%Y%m%d%H%M%S')` formats the six time components as
zero-padded fixed-width decimal fields (4 digits for the year, 2 for the
rest). -/

/-- A broken-down UTC time, as produced by `datetime.utcnow` /
`datetime.utcfromtimestamp`. -/
structure DateTime where
  year : Nat
  month : Nat
  day : Nat
  hour : Nat
  minute : Nat
  second : Nat
deriving DecidableEq

/-- `w` decimal digit characters of `n`, zero padded, most significant
first; models a `%0wd` field of `strftime`. -/
def natDigits : Nat → Nat → List Char
  | 0, _ => []
  | w + 1, n => natDigits w (n / 10) ++ [Char.ofNat (48 + n % 10)]

/-- `strftime('%Y%m%d%H%M%S')` on a broken-down time. -/
def formatTS (t : DateTime) : String :=
  String.mk (natDigits 4 t.year ++ natDigits 2 t.month ++ natDigits 2 t.day ++
    natDigits 2 t.hour ++ natDigits 2 t.minute ++ natDigits 2 t.second)

theorem natDigits_length (w n : Nat) : (natDigits w n).length = w := by
  induction w generalizing n with
  | zero => rfl
  | succ k ih => simp [natDigits, ih]

theorem natDigits_all_digit (w n : Nat) : ∀ c ∈ natDigits w n, c.isDigit = true := by
  induction w generalizing n with
  | zero => simp [natDigits]
  | succ k ih =>
    intro c hc
    simp only [natDigits, List.mem_append, List.mem_singleton] at hc
    rcases hc with h | h
    · exact ih _ _ h
    · subst h
      have h10 : n % 10 < 10 := Nat.mod_lt _ (by decide)
      have hall : ∀ m < 10, (Char.ofNat (48 + m)).isDigit = true := by decide
      exact hall _ h10

theorem formatTS_length (t : DateTime) : (formatTS t).length = 14 := by
  show (natDigits 4 t.year ++ natDigits 2 t.month ++ natDigits 2 t.day ++
    natDigits 2 t.hour ++ natDigits 2 t.minute ++ natDigits 2 t.second).length = 14
  simp [natDigits_length]

theorem formatTS_digits (t : DateTime) : ∀ c ∈ (formatTS t).data, c.isDigit = true := by
  intro c hc
  have hc' : c ∈ natDigits 4 t.year ++ natDigits 2 t.month ++ natDigits 2 t.day ++
      natDigits 2 t.hour ++ natDigits 2 t.minute ++ natDigits 2 t.second := hc
  simp only [List.mem_append] at hc'
  rcases hc' with ((((h | h) | h) | h) | h) | h <;> exact natDigits_all_digit _ _ _ h

/-! ### Version resolution (`get_version`, lines 56-89)

The environment records the working-directory listing, the result of
running `aapt dump badging` on a given apk (`none` models
`FileNotFoundError`, otherwise exit code and combined output), the
modification time of a given file (`none` models `os.path.getmtime`
raising), and the current UTC time. -/

structure VersionEnv where
  files : List String
  aaptRun : String → Option (Int × String)
  mtimeOf : String → Option DateTime
  now : DateTime

/-- The glob `f'{pkg}*.apk'`. -/
def apkGlobPkg (f : String) : Bool := strStarts pkg f && strEnds ".apk" f

/-- `sorted(glob.glob(f'{pkg}*.apk') + glob.glob('*.apk'))` (line 61):
the two glob results are concatenated and the concatenation is sorted. -/
def versionCandidates (files : List String) : List String :=
  sortStr (files.filter apkGlobPkg ++ files.filter (fun f => strEnds ".apk" f))

/-- `candidates[0]` when candidates exist (line 67). -/
def selectedApk (files : List String) : Option String :=
  (versionCandidates files).head?

/-- The literal `versionName='` searched for by the regex on line 74. -/
def vnPat : List Char := "versionName='".data

/-- `re.search(r"versionName='([^']+)'", s)` on the character list: find the
leftmost occurrence of the literal followed by a nonempty run of
non-apostrophe characters and a closing apostrophe; return the capture. -/
def findVN : List Char → Option (List Char)
  | [] => none
  | c :: cs =>
    if vnPat.isPrefixOf (c :: cs) then
      let rest := (c :: cs).drop vnPat.length
      let cap := rest.takeWhile (fun ch => ch.val != 39)
      if cap.length != 0 && cap.length < rest.length then some cap
      else findVN cs
    else findVN cs

/-- The captured `versionName` value of an `aapt dump badging` output. -/
def findVersionName (s : String) : Option String :=
  (findVN s.data).map String.mk

/-- The timestamp fallbacks of lines 82-89: the candidate's mtime formatted
as `%Y%m%d%H%M%S`, or the current UTC time if reading the mtime raises. -/
def mtimeVersion (env : VersionEnv) (apk : String) : String :=
  match env.mtimeOf apk with
  | some t => formatTS t
  | none => formatTS env.now

/-- `get_version` (lines 56-89): pick the first sorted apk candidate, try
`aapt dump badging`, fall back to the file mtime, then to UTC now. -/
def getVersion (env : VersionEnv) : String :=
  match versionCandidates env.files with
  | [] => formatTS env.now
  | apk :: _ =>
    match env.aaptRun apk with
    | none => mtimeVersion env apk
    | some (rc, out) =>
      if rc = 0 then
        match findVersionName out with
        | some v => v
        | none => mtimeVersion env apk
      else mtimeVersion env apk

/-! ### Archive extraction (`extract_from_packages`, lines 122-163) -/

/-- Observable outcome of `extract_from_packages`: the early skip return,
a fatal `exit(code)`, or a normal return after successful extraction. -/
inductive ExtractOutcome where
  | skipped
  | exited (code : Nat)
  | ok
deriving DecidableEq

/-- One extraction-tool invocation: bundled `7zz x` or system `unzip`. -/
inductive ExtractInv where
  | sevenz (archive : String)
  | unzip (archive : String)
deriving DecidableEq

/-- State consulted by `extract_from_packages`: the skip flag, whether
`{pkg}.apk` already exists in the working directory, the `packages/`
listing, whether the bundled `bin/7zz` exists, the exit codes the two
candidate tools would return, and whether `{pkg}.apk` exists after
extraction. -/
structure ExtractEnv where
  skip : Bool
  pkgApkPresent : Bool
  packagesFiles : List String
  sevenzPresent : Bool
  sevenzRet : Int
  unzipRet : Int
  pkgApkAfter : Bool

/-- Candidate discovery of lines 129-141, parametrized by the package
name: prefer `sorted(glob(f'{p}*'))`; only if that is empty fall back to
`sorted(glob('*.zip') + glob('*.7z') + glob('*part*'))`; the chosen
archive is `candidates[0]`. -/
def selectArchive (p : String) (files : List String) : Option String :=
  if sortStr (files.filter (fun f => strStarts p f)) = [] then
    (sortStr (files.filter (fun f => strEnds ".zip" f) ++
      files.filter (fun f => strEnds ".7z" f) ++
      files.filter (fun f => containsPart f))).head?
  else
    (sortStr (files.filter (fun f => strStarts p f))).head?

/-- `extract_from_packages` (lines 122-163): skip when allowed, otherwise
discover a candidate archive (exit 1 if none), extract it with `7zz` or
`unzip` (exit 1 on tool failure), and exit 1 if `{pkg}.apk` is still
missing afterwards.  The second component lists the extraction-tool
invocations performed. -/
def extractFromPackages (env : ExtractEnv) : ExtractOutcome × List ExtractInv :=
  if env.skip && env.pkgApkPresent then (.skipped, [])
  else
    match selectArchive pkg env.packagesFiles with
    | none => (.exited 1, [])
    | some archive =>
      if env.sevenzPresent then
        if env.sevenzRet ≠ 0 then (.exited 1, [.sevenz archive])
        else if env.pkgApkAfter then (.ok, [.sevenz archive])
        else (.exited 1, [.sevenz archive])
      else
        if env.unzipRet ≠ 0 then (.exited 1, [.unzip archive])
        else if env.pkgApkAfter then (.ok, [.unzip archive])
        else (.exited 1, [.unzip archive])

/-! ### Claim theorems: version resolution -/

/-- C2: the claim asserts a strict priority of `packageName*.apk` matches
over plain `*.apk` matches.  The code (line 61) sorts the concatenation
of both glob results, so the lexicographically smallest `*.apk` wins
regardless of the package-name prefix, contradicting the claim and the
source's own `# prefer exact match` comment: with files `a.apk` and
`com.bilibili.AzurLane.apk` present, the non-prefix file `a.apk` is
selected even though a prefix-matching candidate exists. -/
theorem version_candidates_no_priority :
    selectedApk ["a.apk", "com.bilibili.AzurLane.apk"] = some "a.apk" ∧
    strStarts pkg "com.bilibili.AzurLane.apk" = true ∧
    strStarts pkg "a.apk" = false := by
  decide

/-- C5: when no file in the working directory matches the `.apk` glob
patterns, `get_version` still returns normally, and its result is the
current UTC time formatted as a 14-character all-digit `YYYYMMDDHHMMSS`
string. -/
theorem version_timestamp_fallback (env : VersionEnv)
    (h : ∀ f ∈ env.files, strEnds ".apk" f = false) :
    getVersion env = formatTS env.now ∧
    (getVersion env).length = 14 ∧
    ∀ c ∈ (getVersion env).data, c.isDigit = true := by
  have h1 : env.files.filter apkGlobPkg = [] := by
    rw [List.filter_eq_nil_iff]
    intro f hf
    simp [apkGlobPkg, h f hf]
  have h2 : env.files.filter (fun f => strEnds ".apk" f) = [] := by
    rw [List.filter_eq_nil_iff]
    intro f hf
    simp [h f hf]
  have hc : versionCandidates env.files = [] := by
    rw [versionCandidates, h1, h2]
    rfl
  have hg : getVersion env = formatTS env.now := by
    rw [getVersion, hc]
  refine ⟨hg, ?_, ?_⟩
  · rw [hg]; exact formatTS_length env.now
  · rw [hg]; exact formatTS_digits env.now

/-- Witness for C5 at a concrete empty directory. -/
theorem version_timestamp_fallback_witness :
    getVersion ⟨["readme.txt"], fun _ => none, fun _ => none, ⟨2024, 1, 2, 3, 4, 5⟩⟩ =
      formatTS ⟨2024, 1, 2, 3, 4, 5⟩ ∧
    (getVersion ⟨["readme.txt"], fun _ => none, fun _ => none, ⟨2024, 1, 2, 3, 4, 5⟩⟩).length = 14 :=
  have h := version_timestamp_fallback
    ⟨["readme.txt"], fun _ => none, fun _ => none, ⟨2024, 1, 2, 3, 4, 5⟩⟩
    (by decide)
  ⟨h.1, h.2.1⟩

/-- C6: if `aapt` runs on the chosen candidate, exits with code 0, and its
output contains a `versionName='V'` field, then `get_version` resolves to
exactly `V`, whatever the mtime oracle and the current time are (the
fallbacks of lines 82-89 are not consulted). -/
theorem version_aapt_verbatim (files : List String)
    (aapt : String → Option (Int × String)) (mt : String → Option DateTime)
    (now : DateTime) (apk : String) (rest : List String) (out v : String)
    (hc : versionCandidates files = apk :: rest)
    (ha : aapt apk = some (0, out))
    (hv : findVersionName out = some v) :
    getVersion ⟨files, aapt, mt, now⟩ = v := by
  rw [getVersion]
  simp only [hc, ha, hv]
  rfl

/-- Witness for C6: a directory containing `b.apk`, an `aapt` oracle
reporting `versionName='1.2.3'`, and arbitrary time oracles. -/
theorem version_aapt_verbatim_witness :
    getVersion ⟨["b.apk"], fun _ => some (0, "x versionName='1.2.3' y"),
      fun _ => some ⟨1999, 9, 9, 9, 9, 9⟩, ⟨2024, 1, 2, 3, 4, 5⟩⟩ = "1.2.3" :=
  version_aapt_verbatim ["b.apk"] (fun _ => some (0, "x versionName='1.2.3' y"))
    (fun _ => some ⟨1999, 9, 9, 9, 9, 9⟩) ⟨2024, 1, 2, 3, 4, 5⟩
    "b.apk" [] "x versionName='1.2.3' y" "1.2.3"
    (by decide) rfl (by decide)

/-! ### Claim theorems: archive extraction -/

/-- C3 counterexample: the claim as stated asserts that an empty
`packages/` directory always makes the process exit with status 1, but
when the skip flag is set and `{pkg}.apk` already exists in the working
directory, `extract_from_packages` returns at line 125 before the
`packages/` directory is even consulted, so no exit happens. -/
theorem extract_empty_packages_skip_cex :
    (extractFromPackages ⟨true, true, [], true, 0, 0, true⟩).1 = .skipped ∧
    ExtractOutcome.skipped ≠ ExtractOutcome.exited 1 := by
  decide

/-- C3 (amended): if `packages/` contains no file with the package-name
prefix, no `*.zip`, no `*.7z` and no `*part*` file, and the skip
fast-return does not apply (the skip flag is off or `{pkg}.apk` is not
already present), then `extract_from_packages` exits with status 1
without invoking any extraction tool, so no artifact is produced. -/
theorem extract_empty_packages_exits (env : ExtractEnv)
    (hns : env.skip = false ∨ env.pkgApkPresent = false)
    (h1 : ∀ f ∈ env.packagesFiles, strStarts pkg f = false)
    (h2 : ∀ f ∈ env.packagesFiles, strEnds ".zip" f = false)
    (h3 : ∀ f ∈ env.packagesFiles, strEnds ".7z" f = false)
    (h4 : ∀ f ∈ env.packagesFiles, containsPart f = false) :
    extractFromPackages env = (.exited 1, []) := by
  have hskip : (env.skip && env.pkgApkPresent) = false := by
    rcases hns with h | h <;> simp [h]
  have hf1 : env.packagesFiles.filter (fun f => strStarts pkg f) = [] := by
    rw [List.filter_eq_nil_iff]; intro f hf; simp [h1 f hf]
  have hf2 : env.packagesFiles.filter (fun f => strEnds ".zip" f) = [] := by
    rw [List.filter_eq_nil_iff]; intro f hf; simp [h2 f hf]
  have hf3 : env.packagesFiles.filter (fun f => strEnds ".7z" f) = [] := by
    rw [List.filter_eq_nil_iff]; intro f hf; simp [h3 f hf]
  have hf4 : env.packagesFiles.filter (fun f => containsPart f) = [] := by
    rw [List.filter_eq_nil_iff]; intro f hf; simp [h4 f hf]
  have hsel : selectArchive pkg env.packagesFiles = none := by
    rw [selectArchive, hf1, hf2, hf3, hf4]
    rfl
  rw [extractFromPackages, hskip, hsel]
  rfl

/-- Witness for C3 (amended) at a concrete state with an empty
`packages/` directory and the skip flag disabled. -/
theorem extract_empty_packages_exits_witness :
    extractFromPackages ⟨false, false, ["notes.txt"], true, 0, 0, true⟩ = (.exited 1, []) :=
  extract_empty_packages_exits ⟨false, false, ["notes.txt"], true, 0, 0, true⟩
    (Or.inl rfl) (by decide) (by decide) (by decide) (by decide)

/-- C7: archive-candidate discovery is prefix-prioritized and
deterministic: whenever some file in `packages/` starts with the target
package name, the selected archive is such a file (the fallback globs are
not consulted), and on the concrete directory `{A.zip, com.x.Y.zip,
B.7z}` with target `com.x.Y` the selection is exactly `com.x.Y.zip`. -/
theorem archive_discovery_priority (p : String) (files : List String)
    (h : ∃ f, f ∈ files ∧ strStarts p f = true) :
    (∃ g, selectArchive p files = some g ∧ g ∈ files ∧ strStarts p g = true) ∧
    selectArchive "com.x.Y" ["A.zip", "com.x.Y.zip", "B.7z"] = some "com.x.Y.zip" := by
  constructor
  · obtain ⟨f, hf, hp⟩ := h
    have hfil : f ∈ files.filter (fun f => strStarts p f) :=
      List.mem_filter.2 ⟨hf, hp⟩
    have hne : files.filter (fun f => strStarts p f) ≠ [] :=
      List.ne_nil_of_mem hfil
    have hs : sortStr (files.filter (fun f => strStarts p f)) ≠ [] :=
      sortStr_ne_nil _ hne
    rw [selectArchive, if_neg hs]
    cases hq : sortStr (files.filter (fun f => strStarts p f)) with
    | nil => exact absurd hq hs
    | cons g gs =>
      refine ⟨g, rfl, ?_⟩
      have hg : g ∈ sortStr (files.filter (fun f => strStarts p f)) := by
        rw [hq]; exact List.mem_cons_self g gs
      have hg' := (sortStr_mem g _).1 hg
      exact ⟨(List.mem_filter.1 hg').1, (List.mem_filter.1 hg').2⟩
  · decide

/-- Witness for C7 at the claim's concrete directory. -/
theorem archive_discovery_priority_witness :
    selectArchive "com.x.Y" ["A.zip", "com.x.Y.zip", "B.7z"] = some "com.x.Y.zip" :=
  (archive_discovery_priority "com.x.Y" ["A.zip", "com.x.Y.zip", "B.7z"]
    ⟨"com.x.Y.zip", by decide, by decide⟩).2

/-- C8: with the skip flag set and `{pkg}.apk` already present,
`extract_from_packages` returns immediately at line 125: the skipped
outcome carries an empty invocation list, so no extraction tool runs, no
file is touched and the archive's contents are not re-validated. -/
theorem extract_skip_idempotent (env : ExtractEnv)
    (h1 : env.skip = true) (h2 : env.pkgApkPresent = true) :
    extractFromPackages env = (.skipped, []) := by
  rw [extractFromPackages, h1, h2]
  rfl

/-- Witness for C8 at a concrete state with a present target archive. -/
theorem extract_skip_idempotent_witness :
    extractFromPackages ⟨true, true, ["com.bilibili.AzurLane.zip"], true, 0, 0, true⟩ =
      (.skipped, []) :=
  extract_skip_idempotent ⟨true, true, ["com.bilibili.AzurLane.zip"], true, 0, 0, true⟩
    rfl rfl

/-! ### Differential repackaging (`rebuild`, lines 187-212)

A zip-like container is a finite map from entry paths to payload bytes.
The three archive-tool subcommands used by the quick path are modelled by
their effect on that map: `d` removes the listed entries, `a` stores the
listed on-disk files under their host-relative paths (updating an entry
that is already present, and leaving the archive unchanged for a missing
disk file), and `rn` moves each source entry to its destination path. -/

/-- A zip-like container (and also the on-disk file tree): entry path to
payload bytes. -/
def Archive : Type := String → Option (List Nat)

/-- `7zz d archive ps`: delete the entries at the listed paths. -/
def delEntries (a : Archive) (ps : List String) : Archive :=
  fun p => if p ∈ ps then none else a p

/-- `7zz a archive ps`: add the on-disk files at the listed host paths,
stored under those same paths. -/
def addFiles (a disk : Archive) (ps : List String) : Archive :=
  fun p =>
    if p ∈ ps then
      match disk p with
      | some b => some b
      | none => a p
    else a p

/-- `7zz rn archive src dst`: move the entry at `src` to `dst`. -/
def rnEntry (a : Archive) (src dst : String) : Archive :=
  fun p => if p = dst then a src else if p = src then none else a p

/-- A sequence of renames, applied left to right. -/
def rnEntries (a : Archive) (pairs : List (String × String)) : Archive :=
  pairs.foldl (fun acc pr => rnEntry acc pr.1 pr.2) a

/-- The supported ABIs (line 195). -/
def archs : List String := ["arm64-v8a", "x86_64", "x86"]

/-- `libs` (line 195): host-relative paths of the freshly built native
libraries, rooted at the decompiled package directory. -/
def libs : List String :=
  archs.map (fun a => pkg ++ "/lib/" ++ a ++ "/libPerseus.so")

/-- `lib.removeprefix(f'{pkg}/')` (line 196). -/
def dropPkgRoot (s : String) : String :=
  if strStarts (pkg ++ "/") s then String.mk (s.data.drop (pkg ++ "/").length) else s

/-- `libs_renamed` (line 196): the final in-archive library paths. -/
def libsRenamed : List String := libs.map dropPkgRoot

/-- The archive surgery of the quick-rebuild path (lines 198-205): delete
the three in-archive library entries, add the three on-disk library
files, then rename each added path to its final in-archive path. -/
def quickRebuildArchive (a disk : Archive) : Archive :=
  rnEntries (addFiles (delEntries a libsRenamed) disk libs) (libs.zip libsRenamed)

/-- The actions the `rebuild` function performs, in order: the rename to
the scratch `.zip` name, the three archive-tool invocations with their
observed exit codes, the rename back, or the single apktool invocation of
the full path (line 212). -/
inductive RebuildAct where
  | moveToZip
  | szDel (ret : Int)
  | szAdd (ret : Int)
  | szRn (ret : Int)
  | moveToApk
  | apktool
deriving DecidableEq

/-- `f'{pkg}-{pkg_version}.patched.apk'` (line 188). -/
def newpkgName (version : String) : String :=
  pkg ++ "-" ++ version ++ ".patched.apk"

/-- The guard of line 190: quick-rebuild is enabled and the prior
artifact named with the current run's resolved version exists. -/
def quickPath (quick : Bool) (version : String) (files : List String) : Bool :=
  quick && files.contains (newpkgName version)

/-- `rebuild` (lines 187-212) as its action trace: the fast path performs
the two renames and the three archive-tool invocations whatever their
exit codes are; otherwise apktool rebuilds from scratch. -/
def rebuildTrace (quick : Bool) (version : String) (files : List String)
    (r1 r2 r3 : Int) : List RebuildAct :=
  if quickPath quick version files then
    [.moveToZip, .szDel r1, .szAdd r2, .szRn r3, .moveToApk]
  else
    [.apktool]

/-! ### The pipeline (`build_perseus_lib` and `main`, lines 92-119 and
252-287) -/

/-- The stages sequenced by `main` (lines 273-282). -/
inductive Stage where
  | buildLib
  | extract
  | getVersion
  | decompile
  | copyLibs
  | patch
  | rebuild
  | sign
  | compressLibs
deriving DecidableEq

/-- The four lines printed to standard error when `ndk-build` fails
(lines 113-116): header, captured stdout, header, captured stderr. -/
def ndkDump (out err : String) : List String :=
  ["======== ndk-build stdout ========", out,
   "======== ndk-build stderr ========", err]

/-- `build_perseus_lib` (lines 92-119): on a non-zero `ndk-build` exit
status the process exits with status 1 after dumping the captured output;
otherwise the function returns normally. -/
def buildPerseusLib (ret : Int) (out err : String) : Except (Nat × List String) Unit :=
  if ret ≠ 0 then .error (1, ndkDump out err) else .ok ()

/-- State consulted by the whole pipeline run. -/
structure PipeEnv where
  ndkRet : Int
  ndkOut : String
  ndkErr : String
  ex : ExtractEnv
  ver : VersionEnv
  buildFiles : List String
  r1 : Int
  r2 : Int
  r3 : Int
  quick : Bool

/-- `main` (lines 252-287): the stage sequence with its exit behaviour.
Returns the process outcome (normal completion, or `exit` with a status
code and the standard-error dump), the stages that executed, and the
action trace of the rebuild stage when it ran.  Only `build_perseus_lib`
and `extract_from_packages` can terminate the process; every later stage
runs unconditionally. -/
def mainPipeline (env : PipeEnv) :
    Except (Nat × List String) Unit × List Stage × List RebuildAct :=
  match buildPerseusLib env.ndkRet env.ndkOut env.ndkErr with
  | .error e => (.error e, [.buildLib], [])
  | .ok _ =>
    match extractFromPackages env.ex with
    | (.exited c, _) => (.error (c, []), [.buildLib, .extract], [])
    | _ =>
      (.ok (),
       [.buildLib, .extract, .getVersion, .decompile, .copyLibs, .patch,
        .rebuild, .sign, .compressLibs],
       rebuildTrace env.quick (getVersion env.ver) env.buildFiles env.r1 env.r2 env.r3)

/-! ### Claim theorems: pipeline control flow -/

/-- C4: when `ndk-build` exits with a non-zero status the pipeline halts
at the native-build stage with process exit status 1, the dumped
standard-error transcript carries the tool's captured stdout and stderr
verbatim, and no later stage executes. -/
theorem ndk_failure_halts (env : PipeEnv) (h : env.ndkRet ≠ 0) :
    mainPipeline env = (.error (1, ndkDump env.ndkOut env.ndkErr), [.buildLib], []) ∧
    env.ndkOut ∈ ndkDump env.ndkOut env.ndkErr ∧
    env.ndkErr ∈ ndkDump env.ndkOut env.ndkErr := by
  have hb : buildPerseusLib env.ndkRet env.ndkOut env.ndkErr =
      .error (1, ndkDump env.ndkOut env.ndkErr) := by
    rw [buildPerseusLib, if_pos h]
  exact ⟨by simp [mainPipeline, hb], by simp [ndkDump], by simp [ndkDump]⟩

/-- Witness for C4 with an `ndk-build` exit status of 2. -/
theorem ndk_failure_halts_witness :
    mainPipeline ⟨2, "out text", "err text", ⟨true, true, [], true, 0, 0, true⟩,
      ⟨[], fun _ => none, fun _ => none, ⟨2024, 1, 2, 3, 4, 5⟩⟩, [], 0, 0, 0, true⟩ =
    (.error (1, ndkDump "out text" "err text"), [.buildLib], []) :=
  (ndk_failure_halts ⟨2, "out text", "err text", ⟨true, true, [], true, 0, 0, true⟩,
    ⟨[], fun _ => none, fun _ => none, ⟨2024, 1, 2, 3, 4, 5⟩⟩, [], 0, 0, 0, true⟩
    (by decide)).1

/-- C9: on the quick-rebuild fast path the exit codes of the three
archive-tool invocations are only logged: whatever `r1`, `r2`, `r3` are,
every sub-step including the final rename back to the artifact name still
executes, the pipeline outcome stays a normal completion, and the signing
stage still runs. -/
theorem quick_rebuild_errors_logged_only (env : PipeEnv)
    (hq : env.quick = true)
    (hprev : env.buildFiles.contains (newpkgName (getVersion env.ver)) = true)
    (hndk : env.ndkRet = 0)
    (hex : (extractFromPackages env.ex).1 = .skipped ∨
      (extractFromPackages env.ex).1 = .ok) :
    (mainPipeline env).1 = .ok () ∧
    Stage.sign ∈ (mainPipeline env).2.1 ∧
    (mainPipeline env).2.2 =
      [.moveToZip, .szDel env.r1, .szAdd env.r2, .szRn env.r3, .moveToApk] := by
  have hb : buildPerseusLib env.ndkRet env.ndkOut env.ndkErr = .ok () := by
    rw [buildPerseusLib, if_neg]
    simp [hndk]
  have hprev' : newpkgName (getVersion env.ver) ∈ env.buildFiles := by
    simpa using hprev
  have hrt : rebuildTrace env.quick (getVersion env.ver) env.buildFiles
      env.r1 env.r2 env.r3 =
      [.moveToZip, .szDel env.r1, .szAdd env.r2, .szRn env.r3, .moveToApk] := by
    simp [rebuildTrace, quickPath, hq, hprev']
  rcases hE : extractFromPackages env.ex with ⟨o, t⟩
  rw [hE] at hex
  rcases hex with h | h <;> simp only at h <;> subst h <;>
    simp [mainPipeline, hb, hE, hrt]

/-- Witness for C9 with non-zero archive-tool exit codes. -/
theorem quick_rebuild_errors_logged_only_witness :
    (mainPipeline ⟨0, "", "", ⟨true, true, [], true, 0, 0, true⟩,
      ⟨[], fun _ => none, fun _ => none, ⟨2024, 1, 2, 3, 4, 5⟩⟩,
      ["com.bilibili.AzurLane-20240102030405.patched.apk"], 2, 3, 4, true⟩).1 =
      .ok () :=
  (quick_rebuild_errors_logged_only ⟨0, "", "", ⟨true, true, [], true, 0, 0, true⟩,
    ⟨[], fun _ => none, fun _ => none, ⟨2024, 1, 2, 3, 4, 5⟩⟩,
    ["com.bilibili.AzurLane-20240102030405.patched.apk"], 2, 3, 4, true⟩
    rfl (by decide) rfl (Or.inl (by decide))).1

/-- C10: the quick-rebuild fast path is taken exactly when the quick flag
is enabled and a file named `{pkg}-{version}.patched.apk` with the
current run's resolved version exists; when that file is absent the
rebuild silently performs the single apktool invocation, with no
fast-path archive operation and no error. -/
theorem quick_rebuild_gating (q : Bool) (v : String) (files : List String)
    (r1 r2 r3 : Int) :
    (quickPath q v files = true ↔
      q = true ∧ files.contains (newpkgName v) = true) ∧
    (quickPath q v files = true →
      rebuildTrace q v files r1 r2 r3 =
        [.moveToZip, .szDel r1, .szAdd r2, .szRn r3, .moveToApk]) ∧
    (files.contains (newpkgName v) = false →
      rebuildTrace q v files r1 r2 r3 = [.apktool]) := by
  refine ⟨?_, ?_, ?_⟩
  · simp [quickPath]
  · intro h
    simp [rebuildTrace, h]
  · intro h
    have h' : newpkgName v ∉ files := by simpa using h
    simp [rebuildTrace, quickPath, h']

/-- Witness for C10: quick-rebuild enabled, but the only prior artifact
bears last run's version, so apktool runs. -/
theorem quick_rebuild_gating_witness :
    rebuildTrace true "2.0" ["com.bilibili.AzurLane-1.0.patched.apk"] 5 5 5 =
      [.apktool] :=
  (quick_rebuild_gating true "2.0" ["com.bilibili.AzurLane-1.0.patched.apk"]
    5 5 5).2.2 (by decide)

/-! ### Claim theorems: differential repackaging -/

theorem rnEntry_dst (a : Archive) (s t : String) : rnEntry a s t t = a s := by
  simp [rnEntry]

theorem rnEntry_other (a : Archive) (s t p : String) (hp : p ≠ t) (hs : p ≠ s) :
    rnEntry a s t p = a p := by
  simp [rnEntry, hp, hs]

theorem addFiles_mem (a d : Archive) (ps : List String) (p : String) (b : List Nat)
    (h : p ∈ ps) (hd : d p = some b) : addFiles a d ps p = some b := by
  simp [addFiles, h, hd]

theorem addFiles_not_mem (a d : Archive) (ps : List String) (p : String)
    (h : p ∉ ps) : addFiles a d ps p = a p := by
  simp [addFiles, h]

theorem delEntries_not_mem (a : Archive) (ps : List String) (p : String)
    (h : p ∉ ps) : delEntries a ps p = a p := by
  simp [delEntries, h]

/-- A concrete signed archive: the three final library entries, one
unrelated entry, and one entry that happens to sit at a package-root
staging path. -/
def cArch : Archive := fun p =>
  if p = "lib/arm64-v8a/libPerseus.so" then some [1]
  else if p = "lib/x86_64/libPerseus.so" then some [2]
  else if p = "lib/x86/libPerseus.so" then some [3]
  else if p = "com.bilibili.AzurLane/lib/x86/libPerseus.so" then some [9]
  else if p = "classes.dex" then some [10, 11]
  else none

/-- Concrete on-disk library files under the decompiled package root. -/
def cDisk : Archive := fun p =>
  if p = "com.bilibili.AzurLane/lib/arm64-v8a/libPerseus.so" then some [21]
  else if p = "com.bilibili.AzurLane/lib/x86_64/libPerseus.so" then some [22]
  else if p = "com.bilibili.AzurLane/lib/x86/libPerseus.so" then some [23]
  else none

/-- C1 counterexample: the claim asserts that every entry at a path other
than the three library paths is unchanged.  But the add step stores the
on-disk libraries under the package-root staging paths and the rename
step then removes those paths, so an archive that happened to contain an
entry at `com.bilibili.AzurLane/lib/x86/libPerseus.so` — a path other
than the three library paths — loses it. -/
theorem quick_rebuild_frame_cex :
    ((cArch "lib/arm64-v8a/libPerseus.so").isSome = true ∧
      (cArch "lib/x86_64/libPerseus.so").isSome = true ∧
      (cArch "lib/x86/libPerseus.so").isSome = true) ∧
    "com.bilibili.AzurLane/lib/x86/libPerseus.so" ∉ libsRenamed ∧
    quickRebuildArchive cArch cDisk "com.bilibili.AzurLane/lib/x86/libPerseus.so" ≠
      cArch "com.bilibili.AzurLane/lib/x86/libPerseus.so" := by
  decide

/-- C1 (amended): for every archive containing the three library entries
and on-disk library files present for all three ABIs, the quick-rebuild
surgery leaves the three in-archive library paths holding exactly the
on-disk bytes, and every entry at a path other than the three library
paths *and the three package-root staging paths* is unchanged (entries
previously at a staging path are overwritten by the add step and removed
by the rename step). -/
theorem quick_rebuild_roundtrip (a d : Archive) (b0 b1 b2 : List Nat)
    (ha0 : (a "lib/arm64-v8a/libPerseus.so").isSome = true)
    (ha1 : (a "lib/x86_64/libPerseus.so").isSome = true)
    (ha2 : (a "lib/x86/libPerseus.so").isSome = true)
    (hd0 : d "com.bilibili.AzurLane/lib/arm64-v8a/libPerseus.so" = some b0)
    (hd1 : d "com.bilibili.AzurLane/lib/x86_64/libPerseus.so" = some b1)
    (hd2 : d "com.bilibili.AzurLane/lib/x86/libPerseus.so" = some b2) :
    quickRebuildArchive a d "lib/arm64-v8a/libPerseus.so" = some b0 ∧
    quickRebuildArchive a d "lib/x86_64/libPerseus.so" = some b1 ∧
    quickRebuildArchive a d "lib/x86/libPerseus.so" = some b2 ∧
    ∀ p, p ∉ libs → p ∉ libsRenamed → quickRebuildArchive a d p = a p := by
  have hzip : libs.zip libsRenamed =
      [("com.bilibili.AzurLane/lib/arm64-v8a/libPerseus.so", "lib/arm64-v8a/libPerseus.so"),
       ("com.bilibili.AzurLane/lib/x86_64/libPerseus.so", "lib/x86_64/libPerseus.so"),
       ("com.bilibili.AzurLane/lib/x86/libPerseus.so", "lib/x86/libPerseus.so")] := by
    decide
  have hqr : ∀ p, quickRebuildArchive a d p =
      rnEntry (rnEntry (rnEntry (addFiles (delEntries a libsRenamed) d libs)
            "com.bilibili.AzurLane/lib/arm64-v8a/libPerseus.so" "lib/arm64-v8a/libPerseus.so")
          "com.bilibili.AzurLane/lib/x86_64/libPerseus.so" "lib/x86_64/libPerseus.so")
        "com.bilibili.AzurLane/lib/x86/libPerseus.so" "lib/x86/libPerseus.so" p := by
    intro p
    rw [quickRebuildArchive, rnEntries, hzip]
    rfl
  refine ⟨?_, ?_, ?_, ?_⟩
  · rw [hqr, rnEntry_other _ _ _ _ (by decide) (by decide),
      rnEntry_other _ _ _ _ (by decide) (by decide), rnEntry_dst]
    exact addFiles_mem _ _ _ _ _ (by decide) hd0
  · rw [hqr, rnEntry_other _ _ _ _ (by decide) (by decide), rnEntry_dst]
    exact addFiles_mem (delEntries a libsRenamed) d libs
      "com.bilibili.AzurLane/lib/x86_64/libPerseus.so" b1 (by decide) hd1
  · rw [hqr, rnEntry_dst]
    exact addFiles_mem (delEntries a libsRenamed) d libs
      "com.bilibili.AzurLane/lib/x86/libPerseus.so" b2 (by decide) hd2
  · intro p hpL hpR
    have hlibs : libs =
        ["com.bilibili.AzurLane/lib/arm64-v8a/libPerseus.so",
         "com.bilibili.AzurLane/lib/x86_64/libPerseus.so",
         "com.bilibili.AzurLane/lib/x86/libPerseus.so"] := by decide
    have hren : libsRenamed =
        ["lib/arm64-v8a/libPerseus.so", "lib/x86_64/libPerseus.so",
         "lib/x86/libPerseus.so"] := by decide
    have hL : p ≠ "com.bilibili.AzurLane/lib/arm64-v8a/libPerseus.so" ∧
        p ≠ "com.bilibili.AzurLane/lib/x86_64/libPerseus.so" ∧
        p ≠ "com.bilibili.AzurLane/lib/x86/libPerseus.so" := by
      rw [hlibs] at hpL
      simpa using hpL
    have hR : p ≠ "lib/arm64-v8a/libPerseus.so" ∧ p ≠ "lib/x86_64/libPerseus.so" ∧
        p ≠ "lib/x86/libPerseus.so" := by
      rw [hren] at hpR
      simpa using hpR
    rw [hqr, rnEntry_other _ _ _ _ hR.2.2 hL.2.2, rnEntry_other _ _ _ _ hR.2.1 hL.2.1,
      rnEntry_other _ _ _ _ hR.1 hL.1, addFiles_not_mem _ _ _ _ hpL,
      delEntries_not_mem _ _ _ hpR]

/-- Witness for C1 (amended) on the concrete archive and disk tree. -/
theorem quick_rebuild_roundtrip_witness :
    quickRebuildArchive cArch cDisk "lib/x86/libPerseus.so" = some [23] :=
  (quick_rebuild_roundtrip cArch cDisk [21] [22] [23] (by decide) (by decide)
    (by decide) (by decide) (by decide) (by decide)).2.2.1

end PiePerseus
